import Mathlib

/-!
Verification of the `diskcache` Django cache adapter (`diskcache/djangocache.py`)
and of the underlying sharded cache core it delegates to.

The adapter (`DjangoCache`) is translated directly from the Python source.
The underlying engine (`FanoutCache` / per-shard `Cache`) is not part of the
inspected sources; its single-key operations are modelled from the
specification's description of the core (add / get / set / delete / incr /
contains / close, TTL expiration, the error taxonomy
{Timeout, KeyNotFound, ClosedCache}).  Time is passed explicitly as an
integer timestamp `now`; an entry is expired once its absolute `expire_time`
is ≤ `now`.
-/

set_option autoImplicit false

namespace DiskCache

/-- A cached value: an integer (the only values `incr`/`decr` operate on) or
an opaque payload, modelled as a string. -/
inductive Value where
  | int (n : Int)
  | str (s : String)
  deriving DecidableEq, Repr

/-- Modelled from the spec: an Entry is key (held by the surrounding map),
value, absolute `expire_time` (`none` = no expiry), and optional tag. -/
structure Entry where
  value : Value
  expire_time : Option Int
  tag : Option String
  deriving DecidableEq, Repr

end DiskCache

namespace DiskCache

/-- The error taxonomy: the core's {Timeout, KeyNotFound, ClosedCache} plus
the host-side errors the adapter raises (`ValueError`) and the implicit
`TypeError` of incrementing a non-integer value. -/
inductive PyErr where
  | Timeout
  | KeyNotFound
  | ClosedCache
  | ValueErr
  | TypeErr
  deriving DecidableEq, Repr

/-- Modelled from the spec: the observable state of the core store — the
entry map (an association list keyed by final key strings; first match wins)
together with whether `close()` has been called. -/
structure CoreCache where
  entries : List (String × Entry)
  closed : Bool
  deriving DecidableEq, Repr

/-- First-match lookup in the entry association list. -/
def lookupKey (key : String) : List (String × Entry) → Option Entry
  | [] => none
  | (k, e) :: rest => if k = key then some e else lookupKey key rest

/-- Remove every binding of `key` from the entry list. -/
def eraseKey (key : String) (l : List (String × Entry)) : List (String × Entry) :=
  l.filter (fun p => p.1 ≠ key)

/-- Insert or replace the entry for `key`: the per-key upsert every core
write performs. -/
def setEntry (c : CoreCache) (key : String) (e : Entry) : CoreCache :=
  { c with entries := (key, e) :: eraseKey key c.entries }

/-- Modelled from the spec: an entry past its `expire_time` is logically
absent from all reads. -/
def expired (now : Int) (e : Entry) : Bool :=
  match e.expire_time with
  | none => false
  | some t => t ≤ now

/-- Lookup honouring expiration: the entry for `key`, unless missing or
already expired at time `now`. -/
def lookupValid (c : CoreCache) (now : Int) (key : String) : Option Entry :=
  match lookupKey key c.entries with
  | some e => if expired now e then none else some e
  | none => none

/-- Modelled from the spec: `set(key, value, ttl, tag)` — unconditional
upsert replacing value, expire_time and tag; fails with ClosedCache after
close().  A `ttl` of `none` means no expiry; otherwise the absolute
expire_time is `now + ttl`. -/
def core_set (c : CoreCache) (now : Int) (key : String) (value : Value)
    (ttl : Option Int) (tag : Option String) : Except PyErr (CoreCache × Bool) :=
  if c.closed then .error .ClosedCache
  else .ok (setEntry c key ⟨value, ttl.map (fun d => now + d), tag⟩, true)

/-- Modelled from the spec: `get(key, default)` — returns the stored value,
or `default` if the key is missing or expired; fails with ClosedCache after
close(). -/
def core_get (c : CoreCache) (now : Int) (key : String) (dflt : Option Value) :
    Except PyErr (Option Value) :=
  if c.closed then .error .ClosedCache
  else match lookupValid c now key with
    | some e => .ok (some e.value)
    | none => .ok dflt

/-- Modelled from the spec: `add(key, value, ttl, tag)` — inserts only if the
key is absent-or-expired; returns whether the write occurred. -/
def core_add (c : CoreCache) (now : Int) (key : String) (value : Value)
    (ttl : Option Int) (tag : Option String) : Except PyErr (CoreCache × Bool) :=
  if c.closed then .error .ClosedCache
  else match lookupValid c now key with
    | some _ => .ok (c, false)
    | none => .ok (setEntry c key ⟨value, ttl.map (fun d => now + d), tag⟩, true)

/-- Modelled from the spec: `delete(key)` — removes if present (honouring
expiration), else no-op; returns whether an entry was removed. -/
def core_delete (c : CoreCache) (now : Int) (key : String) :
    Except PyErr (CoreCache × Bool) :=
  if c.closed then .error .ClosedCache
  else match lookupValid c now key with
    | some _ => .ok ({ c with entries := eraseKey key c.entries }, true)
    | none => .ok (c, false)

/-- Modelled from the spec: `incr(key, delta, default)` — atomic
read-modify-write; fails with KeyNotFound if the key is absent-or-expired
and `default` is unset, otherwise seeds the entry to `default` before
applying `delta`.  The stored value is assumed to fit an integer column;
incrementing a non-integer value is a type error. -/
def core_incr (c : CoreCache) (now : Int) (key : String) (delta : Int)
    (dflt : Option Int) : Except PyErr (CoreCache × Int) :=
  if c.closed then .error .ClosedCache
  else match lookupValid c now key with
    | some e =>
      match e.value with
      | .int n => .ok (setEntry c key { e with value := .int (n + delta) }, n + delta)
      | .str _ => .error .TypeErr
    | none =>
      match dflt with
      | none => .error .KeyNotFound
      | some d => .ok (setEntry c key ⟨.int (d + delta), none, none⟩, d + delta)

/-- Modelled from the spec: `contains(key)` — membership honouring
expiration. -/
def core_contains (c : CoreCache) (now : Int) (key : String) : Except PyErr Bool :=
  if c.closed then .error .ClosedCache
  else .ok (lookupValid c now key).isSome

/-- Modelled from the spec: `close()` — releases shard resources; every
subsequent operation observes the closed flag and fails with ClosedCache. -/
def core_close (c : CoreCache) : CoreCache :=
  { c with closed := true }

/-- The Django cache adapter state: the wrapped core (`self._cache`) plus the
`BaseCache` parameters the adapter reads (`key_prefix`, the default key
`version`, and `default_timeout`; `default_timeout = none` models Django's
"never expire" setting). -/
structure DjangoCache where
  core : CoreCache
  keyPfx : String
  version_default : Int
  default_timeout : Option Int
  deriving DecidableEq, Repr

/-- The `timeout` argument of `add`/`set`/`get_backend_timeout`: the
`DEFAULT_TIMEOUT` sentinel, Python `None` (never expire), or a number of
seconds. -/
inductive TimeoutArg where
  | DEFAULT_TIMEOUT
  | pyNone
  | secs (t : Int)
  deriving DecidableEq, Repr

namespace DjangoCache

/-- Modelled from the spec: the adapter supplies final key strings via the
host framework's versioned key scheme (Django's default
`KEY_FUNCTION`): `"prefix:version:key"`, with `version` defaulting to the
cache's configured version.  `django.core.cache` is not among the inspected
sources. -/
def make_key (s : DjangoCache) (key : String) (version : Option Int) : String :=
  s.keyPfx ++ ":" ++ toString (version.getD s.version_default) ++ ":" ++ key

/-- `DjangoCache.get_backend_timeout` (djangocache.py lines 248-260): the
`DEFAULT_TIMEOUT` sentinel becomes `self.default_timeout`, an explicit `0`
becomes `-1` (immediately expired, ticket 21147), `None` stays `None`. -/
def get_backend_timeout (s : DjangoCache) (timeout : TimeoutArg) : Option Int :=
  match timeout with
  | .DEFAULT_TIMEOUT => s.default_timeout
  | .pyNone => none
  | .secs t => if t = 0 then some (-1) else some t

/-- The argument tuple `DjangoCache.add` passes to `self._cache.add` (line
52).  The `read` stream flag is not modelled. -/
structure AddArgs where
  key : String
  value : Value
  timeout : Option Int
  tag : Option String
  retry : Bool
  deriving DecidableEq, Repr

/-- `DjangoCache.add` argument resolution (lines 30-52): defaults
`timeout=DEFAULT_TIMEOUT, version=None, tag=None, retry=True`; the key is
versioned with `make_key` and the timeout resolved with
`get_backend_timeout`. -/
def addArgs (s : DjangoCache) (key : String) (value : Value)
    (timeout : TimeoutArg := .DEFAULT_TIMEOUT) (version : Option Int := none)
    (tag : Option String := none) (retry : Bool := true) : AddArgs :=
  ⟨s.make_key key version, value, s.get_backend_timeout timeout, tag, retry⟩

/-- `DjangoCache.add` (lines 30-52): `return self._cache.add(key, value,
timeout, read, tag, retry)`. -/
def add (s : DjangoCache) (now : Int) (key : String) (value : Value)
    (timeout : TimeoutArg := .DEFAULT_TIMEOUT) (version : Option Int := none)
    (tag : Option String := none) (retry : Bool := true) :
    Except PyErr (DjangoCache × Bool) :=
  let a := s.addArgs key value timeout version tag retry
  match core_add s.core now a.key a.value a.timeout a.tag with
  | .ok (c, b) => .ok ({ s with core := c }, b)
  | .error e => .error e

/-- The argument tuple `DjangoCache.get` passes to `self._cache.get` (line
74).  The `read`/`expire_time`/`tag` result-shape flags are not modelled. -/
structure GetArgs where
  key : String
  dflt : Option Value
  retry : Bool
  deriving DecidableEq, Repr

/-- `DjangoCache.get` argument resolution (lines 55-74): defaults
`default=None, version=None, retry=False`. -/
def getArgs (s : DjangoCache) (key : String) (dflt : Option Value := none)
    (version : Option Int := none) (retry : Bool := false) : GetArgs :=
  ⟨s.make_key key version, dflt, retry⟩

/-- `DjangoCache.get` (lines 55-74): `return self._cache.get(key, default,
read, expire_time, tag, retry)`. -/
def get (s : DjangoCache) (now : Int) (key : String) (dflt : Option Value := none)
    (version : Option Int := none) (retry : Bool := false) :
    Except PyErr (Option Value) :=
  let a := s.getArgs key dflt version retry
  core_get s.core now a.key a.dflt

/-- The argument tuple `DjangoCache.set` passes to `self._cache.set` (line
109). -/
structure SetArgs where
  key : String
  value : Value
  timeout : Option Int
  tag : Option String
  retry : Bool
  deriving DecidableEq, Repr

/-- `DjangoCache.set` argument resolution (lines 90-109): defaults
`timeout=DEFAULT_TIMEOUT, version=None, tag=None, retry=True`. -/
def setArgs (s : DjangoCache) (key : String) (value : Value)
    (timeout : TimeoutArg := .DEFAULT_TIMEOUT) (version : Option Int := none)
    (tag : Option String := none) (retry : Bool := true) : SetArgs :=
  ⟨s.make_key key version, value, s.get_backend_timeout timeout, tag, retry⟩

/-- `DjangoCache.set` (lines 90-109): `return self._cache.set(key, value,
timeout, read, tag, retry)`. -/
def set (s : DjangoCache) (now : Int) (key : String) (value : Value)
    (timeout : TimeoutArg := .DEFAULT_TIMEOUT) (version : Option Int := none)
    (tag : Option String := none) (retry : Bool := true) :
    Except PyErr (DjangoCache × Bool) :=
  let a := s.setArgs key value timeout version tag retry
  match core_set s.core now a.key a.value a.timeout a.tag with
  | .ok (c, b) => .ok ({ s with core := c }, b)
  | .error e => .error e

/-- The argument tuple `DjangoCache.delete` passes to `self._cache.delete`
(line 123). -/
structure DeleteArgs where
  key : String
  retry : Bool
  deriving DecidableEq, Repr

/-- `DjangoCache.delete` argument resolution (line 112): defaults
`version=None, retry=True`. -/
def deleteArgs (s : DjangoCache) (key : String) (version : Option Int := none)
    (retry : Bool := true) : DeleteArgs :=
  ⟨s.make_key key version, retry⟩

/-- `DjangoCache.delete` (lines 112-123).  The body is
`self._cache.delete(key, retry)` WITHOUT a `return`, so the Python function
always returns `None` (modelled as the `Option Bool` result `none`): the
boolean from the core is discarded. -/
def delete (s : DjangoCache) (now : Int) (key : String)
    (version : Option Int := none) (retry : Bool := true) :
    Except PyErr (DjangoCache × Option Bool) :=
  let a := s.deleteArgs key version retry
  match core_delete s.core now a.key with
  | .ok (c, _) => .ok ({ s with core := c }, none)
  | .error e => .error e

/-- The argument tuple `DjangoCache.incr` passes to `self._cache.incr` (line
151). -/
structure IncrArgs where
  key : String
  delta : Int
  dflt : Option Int
  retry : Bool
  deriving DecidableEq, Repr

/-- `DjangoCache.incr` argument resolution (line 126): defaults `delta=1,
version=None, default=None, retry=True`. -/
def incrArgs (s : DjangoCache) (key : String) (delta : Int := 1)
    (version : Option Int := none) (dflt : Option Int := none)
    (retry : Bool := true) : IncrArgs :=
  ⟨s.make_key key version, delta, dflt, retry⟩

/-- `DjangoCache.incr` (lines 126-153): delegates to `self._cache.incr` and
remaps the core's missing-key error (`KeyError`) to `ValueError`. -/
def incr (s : DjangoCache) (now : Int) (key : String) (delta : Int := 1)
    (version : Option Int := none) (dflt : Option Int := none)
    (retry : Bool := true) : Except PyErr (DjangoCache × Int) :=
  let a := s.incrArgs key delta version dflt retry
  match core_incr s.core now a.key a.delta a.dflt with
  | .ok (c, n) => .ok ({ s with core := c }, n)
  | .error .KeyNotFound => .error .ValueErr
  | .error e => .error e

/-- `DjangoCache.decr` argument resolution (lines 156-182): defaults
`delta=1, version=None, default=None, retry=True`; the call made is
`self.incr(key, -delta, version, default, retry)`. -/
def decrArgs (s : DjangoCache) (key : String) (delta : Int := 1)
    (version : Option Int := none) (dflt : Option Int := none)
    (retry : Bool := true) : IncrArgs :=
  s.incrArgs key (-delta) version dflt retry

/-- `DjangoCache.decr` (lines 156-182): `return self.incr(key, -delta,
version, default, retry)`. -/
def decr (s : DjangoCache) (now : Int) (key : String) (delta : Int := 1)
    (version : Option Int := none) (dflt : Option Int := none)
    (retry : Bool := true) : Except PyErr (DjangoCache × Int) :=
  s.incr now key (-delta) version dflt retry

/-- `DjangoCache.has_key` (lines 185-194): `key = make_key(...); return key
in self._cache`. -/
def has_key (s : DjangoCache) (now : Int) (key : String)
    (version : Option Int := none) : Except PyErr Bool :=
  core_contains s.core now (s.make_key key version)

/-- `DjangoCache.close` (lines 242-245): `self._cache.close()`. -/
def close (s : DjangoCache) : DjangoCache :=
  { s with core := core_close s.core }

end DjangoCache

/-- A single-key mutating core operation, for reasoning about what happens
to one key while other operations run. -/
inductive Op where
  | opSet (key : String) (value : Value) (ttl : Option Int) (tag : Option String)
  | opAdd (key : String) (value : Value) (ttl : Option Int) (tag : Option String)
  | opDelete (key : String)
  | opIncr (key : String) (delta : Int) (dflt : Option Int)
  deriving DecidableEq, Repr

/-- The key an operation targets. -/
def Op.key : Op → String
  | .opSet k _ _ _ => k
  | .opAdd k _ _ _ => k
  | .opDelete k => k
  | .opIncr k _ _ => k

/-- State transition of one core operation at time `t` (a failed operation
leaves the state unchanged). -/
def stepOp (c : CoreCache) (t : Int) (o : Op) : CoreCache :=
  match o with
  | .opSet k v ttl tag =>
    match core_set c t k v ttl tag with
    | .ok (c2, _) => c2
    | .error _ => c
  | .opAdd k v ttl tag =>
    match core_add c t k v ttl tag with
    | .ok (c2, _) => c2
    | .error _ => c
  | .opDelete k =>
    match core_delete c t k with
    | .ok (c2, _) => c2
    | .error _ => c
  | .opIncr k d dflt =>
    match core_incr c t k d dflt with
    | .ok (c2, _) => c2
    | .error _ => c

/-- Run a sequence of timestamped core operations. -/
def runOps (c : CoreCache) (ops : List (Int × Op)) : CoreCache :=
  ops.foldl (fun acc p => stepOp acc p.1 p.2) c

/-- Unfolding equation for `lookupKey` on a cons cell. -/
theorem lookupKey_cons (key a : String) (e : Entry) (rest : List (String × Entry)) :
    lookupKey key ((a, e) :: rest) =
      if a = key then some e else lookupKey key rest := rfl

/-- Unfolding equation for `eraseKey` on a cons cell. -/
theorem eraseKey_cons (key : String) (p : String × Entry) (l : List (String × Entry)) :
    eraseKey key (p :: l) =
      if p.1 = key then eraseKey key l else p :: eraseKey key l := by
  simp only [eraseKey, List.filter_cons]
  by_cases h : p.1 = key <;> simp [h]

/-- Erasing one key does not disturb lookups of another. -/
theorem lookupKey_eraseKey_ne (k k2 : String) (l : List (String × Entry))
    (h : k ≠ k2) : lookupKey k (eraseKey k2 l) = lookupKey k l := by
  induction l with
  | nil => rfl
  | cons p rest ih =>
    rcases p with ⟨a, e⟩
    rw [eraseKey_cons]
    by_cases h2 : a = k2
    · have ha : a ≠ k := fun hk => h (hk ▸ h2 : k = k2)
      simp [h2, lookupKey_cons, ha, ih, Ne.symm h]
    · by_cases hk : a = k
      · simp [h2, lookupKey_cons, hk, h]
      · simp [h2, lookupKey_cons, hk, ih, h]

/-- Upserting an entry leaves the closed flag untouched. -/
theorem setEntry_closed (c : CoreCache) (key : String) (e : Entry) :
    (setEntry c key e).closed = c.closed := rfl

/-- Looking up the key just upserted yields the new entry. -/
theorem lookupKey_setEntry_self (c : CoreCache) (key : String) (e : Entry) :
    lookupKey key (setEntry c key e).entries = some e := by
  simp [setEntry, lookupKey_cons]

/-- Upserting one key does not disturb lookups of another. -/
theorem lookupKey_setEntry_ne (c : CoreCache) (k k2 : String) (e : Entry)
    (h : k2 ≠ k) : lookupKey k (setEntry c k2 e).entries = lookupKey k c.entries := by
  simp [setEntry, lookupKey_cons, h, lookupKey_eraseKey_ne k k2 _ (Ne.symm h)]

/-- The entry list after a successful `stepOp` is, on keys other than the
operation's target, the same as before; and the closed flag never changes. -/
theorem stepOp_closed (c : CoreCache) (t : Int) (o : Op) :
    (stepOp c t o).closed = c.closed := by
  rcases o with ⟨k2, v, ttl, tag⟩ | ⟨k2, v, ttl, tag⟩ | k2 | ⟨k2, d, dflt⟩
  · simp only [stepOp, core_set]
    by_cases hc : c.closed <;> simp [hc, setEntry_closed]
  · simp only [stepOp, core_add]
    by_cases hc : c.closed
    · simp [hc]
    · rcases hl : lookupValid c t k2 with _ | e <;> simp [hc, hl, setEntry_closed]
  · simp only [stepOp, core_delete]
    by_cases hc : c.closed
    · simp [hc]
    · rcases hl : lookupValid c t k2 with _ | e <;> simp [hc, hl]
  · simp only [stepOp, core_incr]
    by_cases hc : c.closed
    · simp [hc]
    · rcases hl : lookupValid c t k2 with _ | e
      · rcases dflt with _ | d2 <;> simp [hc, hl, setEntry_closed]
      · rcases hv : e.value with n | str2 <;> simp [hc, hl, hv, setEntry_closed]

/-- An operation on a different key does not disturb the lookup of `k`. -/
theorem stepOp_lookup_ne (c : CoreCache) (t : Int) (o : Op) (k : String)
    (h : o.key ≠ k) :
    lookupKey k (stepOp c t o).entries = lookupKey k c.entries := by
  rcases o with ⟨k2, v, ttl, tag⟩ | ⟨k2, v, ttl, tag⟩ | k2 | ⟨k2, d, dflt⟩ <;>
    simp only [Op.key] at h
  · simp only [stepOp, core_set]
    by_cases hc : c.closed
    · simp [hc]
    · simp [hc, lookupKey_setEntry_ne c k k2 _ h]
  · simp only [stepOp, core_add]
    by_cases hc : c.closed
    · simp [hc]
    · rcases hl : lookupValid c t k2 with _ | e <;>
        simp [hc, hl, lookupKey_setEntry_ne c k k2 _ h]
  · simp only [stepOp, core_delete]
    by_cases hc : c.closed
    · simp [hc]
    · rcases hl : lookupValid c t k2 with _ | e <;>
        simp [hc, hl, lookupKey_eraseKey_ne k k2 _ (Ne.symm h)]
  · simp only [stepOp, core_incr]
    by_cases hc : c.closed
    · simp [hc]
    · rcases hl : lookupValid c t k2 with _ | e
      · rcases dflt with _ | d2 <;>
          simp [hc, hl, lookupKey_setEntry_ne c k k2 _ h]
      · rcases hv : e.value with n | str2 <;>
          simp [hc, hl, hv, lookupKey_setEntry_ne c k k2 _ h]

/-- Running operations that all target other keys preserves the lookup of
`k` and the closed flag. -/
theorem runOps_frame (c : CoreCache) (ops : List (Int × Op)) (k : String)
    (h : ∀ p ∈ ops, (p.2).key ≠ k) :
    lookupKey k (runOps c ops).entries = lookupKey k c.entries ∧
      (runOps c ops).closed = c.closed := by
  induction ops generalizing c with
  | nil => exact ⟨rfl, rfl⟩
  | cons p rest ih =>
    have hp : (p.2).key ≠ k := h p (List.mem_cons_self p rest)
    have hrest : ∀ q ∈ rest, (q.2).key ≠ k := fun q hq => h q (List.mem_cons_of_mem p hq)
    have := ih (stepOp c p.1 p.2) hrest
    refine ⟨?_, ?_⟩
    · rw [runOps] at this ⊢
      simp only [List.foldl_cons]
      rw [this.1, stepOp_lookup_ne c p.1 p.2 k hp]
    · rw [runOps] at this ⊢
      simp only [List.foldl_cons]
      rw [this.2, stepOp_closed]

/-- C5: For every key, delta, version, default, and retry flag,
`decr(key, delta, version, default, retry)` returns the same result (or
fails with the same error) as `incr(key, -delta, version, default, retry)`
— `DjangoCache.decr` (lines 156-182) delegates to `self.incr` with the
delta negated and every other argument forwarded unchanged. -/
theorem decr_eq_incr_neg (s : DjangoCache) (now : Int) (key : String)
    (delta : Int) (version : Option Int) (dflt : Option Int) (r : Bool) :
    s.decr now key delta version dflt r = s.incr now key (-delta) version dflt r := rfl

/-- C10: the adapter's retry defaults are asymmetric between reads and
writes: when the caller omits `retry`, `get` passes `retry=False` to the
core while `add`, `set`, `delete`, `incr` and `decr` all pass
`retry=True`. -/
theorem retry_default_asymmetry (s : DjangoCache) (key : String) (value : Value) :
    (s.getArgs key).retry = false ∧
    (s.addArgs key value).retry = true ∧
    (s.setArgs key value).retry = true ∧
    (s.deleteArgs key).retry = true ∧
    (s.incrArgs key).retry = true ∧
    (s.decrArgs key).retry = true :=
  ⟨rfl, rfl, rfl, rfl, rfl, rfl⟩

/-- C9: `close()` is idempotent, and after `close()` every subsequent cache
operation (get, set, add, delete, incr, decr, has_key) fails with
ClosedCache. -/
theorem close_idempotent_ops_fail :
    (∀ s : DjangoCache, s.close.close = s.close) ∧
    (∀ (s : DjangoCache) (now : Int) (key : String) (value : Value)
        (dflt : Option Value) (d : Option Int) (delta : Int),
      s.close.get now key dflt = .error .ClosedCache ∧
      s.close.set now key value = .error .ClosedCache ∧
      s.close.add now key value = .error .ClosedCache ∧
      s.close.delete now key = .error .ClosedCache ∧
      s.close.incr now key delta none d = .error .ClosedCache ∧
      s.close.decr now key delta none d = .error .ClosedCache ∧
      s.close.has_key now key = .error .ClosedCache) :=
  ⟨fun _ => rfl,
   fun _ _ _ _ _ _ _ => ⟨rfl, rfl, rfl, rfl, rfl, rfl, rfl⟩⟩

/-- C3: on a key that is absent-or-expired, `incr` with no default fails
with the missing-key error KeyNotFound; with a default `d` set, the entry is
seeded to `d` and then `delta` applied, so the call returns `d + delta`.
(The adapter, lines 150-153, then remaps the core's missing-key error to the
host's ValueError.) -/
theorem incr_absent_key (c : CoreCache) (now : Int) (key : String) (delta : Int)
    (hopen : c.closed = false) (habsent : lookupValid c now key = none) :
    core_incr c now key delta none = .error .KeyNotFound ∧
    ∀ d : Int, (core_incr c now key delta (some d)).map Prod.snd = .ok (d + delta) := by
  constructor
  · simp [core_incr, hopen, habsent]
  · intro d
    simp [core_incr, hopen, habsent, Except.map]

/-- Witness for C3 at a concrete input: an empty open cache, key "a",
delta 7; `incr` with no default fails with KeyNotFound, and with default 5
returns 12. -/
theorem incr_absent_key_witness :
    core_incr ⟨[], false⟩ 0 "a" 7 none = .error .KeyNotFound ∧
    (core_incr ⟨[], false⟩ 0 "a" 7 (some 5)).map Prod.snd = .ok 12 := by
  have h := incr_absent_key ⟨[], false⟩ 0 "a" 7 rfl rfl
  refine ⟨h.1, ?_⟩
  have h2 := h.2 5
  norm_num at h2
  exact h2

/-- C4 (code divergence): `DjangoCache.delete` (lines 112-123) calls
`self._cache.delete(key, retry)` without returning its result, so the
Python method always returns `None`, although its own docstring says
":return: True if item was deleted".  Here the core removes a present entry
and reports `true`, yet the adapter's return value is `none`. -/
theorem delete_returns_none :
    core_delete (⟨[("p:1:a", ⟨.int 3, none, none⟩)], false⟩ : CoreCache) 0 "p:1:a"
      = .ok (⟨[], false⟩, true) ∧
    DjangoCache.delete ⟨⟨[("p:1:a", ⟨.int 3, none, none⟩)], false⟩, "p", 1, some 300⟩ 0 "a"
      = .ok (⟨⟨[], false⟩, "p", 1, some 300⟩, none) := by
  constructor <;> rfl

/-- C1: after `set(k, v)` succeeds at time `t0`, a `get(k)` at any time `t`
returns `v`, as long as the entry has not been overwritten (every
intervening operation targets a different key) and its expire_time
(`t0 + ttl`) has not passed. -/
theorem set_then_get_until_expiry (c c1 : CoreCache) (t0 t : Int) (k : String)
    (v : Value) (ttl : Option Int) (tag : Option String) (dflt : Option Value)
    (ops : List (Int × Op))
    (hset : core_set c t0 k v ttl tag = .ok (c1, true))
    (hframe : ∀ p ∈ ops, (p.2).key ≠ k)
    (hexp : ∀ d, ttl = some d → t < t0 + d) :
    core_get (runOps c1 ops) t k dflt = .ok (some v) := by
  have hc : c.closed = false := by
    by_cases hc : c.closed = true
    · simp [core_set, hc] at hset
    · simpa using hc
  have hcomp : core_set c t0 k v ttl tag =
      .ok (setEntry c k ⟨v, ttl.map (fun d => t0 + d), tag⟩, true) := by
    simp [core_set, hc]
  rw [hcomp] at hset
  injection hset with h
  injection h with h1 h2
  subst h1
  obtain ⟨hlook0, hclosed0⟩ :=
    runOps_frame (setEntry c k ⟨v, ttl.map (fun d => t0 + d), tag⟩) ops k hframe
  rw [lookupKey_setEntry_self] at hlook0
  rw [setEntry_closed, hc] at hclosed0
  have hnoexp : expired t (⟨v, ttl.map (fun d => t0 + d), tag⟩ : Entry) = false := by
    rcases ttl with _ | d
    · rfl
    · have hd := hexp d rfl
      simp [expired]
      omega
  simp [core_get, hclosed0, lookupValid, hlook0, hnoexp]

/-- Witness for C1 at a concrete input: set "a" at time 0 with ttl 10, run
two operations on another key "b", then get "a" at time 5 still returns the
stored value. -/
theorem set_then_get_until_expiry_witness :
    core_get (runOps ⟨[("a", ⟨.str "x", some 10, none⟩)], false⟩
      [(1, .opSet "b" (.int 2) none none), (2, .opDelete "b")]) 5 "a" none
      = .ok (some (.str "x")) :=
  set_then_get_until_expiry ⟨[], false⟩ ⟨[("a", ⟨.str "x", some 10, none⟩)], false⟩
    0 5 "a" (.str "x") (some 10) none none
    [(1, .opSet "b" (.int 2) none none), (2, .opDelete "b")]
    rfl
    (by decide)
    (by intro d hd; injection hd with h; omega)

/-- C2: if `add(k, v1)` succeeded at time `t0` and `k` has not been removed
(every intervening operation targets another key) nor expired, a subsequent
`add(k, v2)` returns false and leaves the state unchanged, and `get(k)`
still returns `v1`. -/
theorem add_insert_once (c c1 : CoreCache) (t0 t : Int) (k : String)
    (v1 v2 : Value) (ttl ttl2 : Option Int) (tag tag2 : Option String)
    (ops : List (Int × Op))
    (hadd : core_add c t0 k v1 ttl tag = .ok (c1, true))
    (hframe : ∀ p ∈ ops, (p.2).key ≠ k)
    (hexp : ∀ d, ttl = some d → t < t0 + d) :
    core_add (runOps c1 ops) t k v2 ttl2 tag2 = .ok (runOps c1 ops, false) ∧
    core_get (runOps c1 ops) t k none = .ok (some v1) := by
  have hc : c.closed = false := by
    by_cases hc : c.closed = true
    · simp [core_add, hc] at hadd
    · simpa using hc
  have hab : lookupValid c t0 k = none := by
    rcases hl : lookupValid c t0 k with _ | e
    · rfl
    · simp [core_add, hc, hl] at hadd
  have hcomp : core_add c t0 k v1 ttl tag =
      .ok (setEntry c k ⟨v1, ttl.map (fun d => t0 + d), tag⟩, true) := by
    simp [core_add, hc, hab]
  rw [hcomp] at hadd
  injection hadd with h
  injection h with h1 h2
  subst h1
  obtain ⟨hlook0, hclosed0⟩ :=
    runOps_frame (setEntry c k ⟨v1, ttl.map (fun d => t0 + d), tag⟩) ops k hframe
  rw [lookupKey_setEntry_self] at hlook0
  rw [setEntry_closed, hc] at hclosed0
  have hnoexp : expired t (⟨v1, ttl.map (fun d => t0 + d), tag⟩ : Entry) = false := by
    rcases ttl with _ | d
    · rfl
    · have hd := hexp d rfl
      simp [expired]
      omega
  have hvalid : lookupValid (runOps (setEntry c k
      ⟨v1, ttl.map (fun d => t0 + d), tag⟩) ops) t k =
      some ⟨v1, ttl.map (fun d => t0 + d), tag⟩ := by
    simp [lookupValid, hlook0, hnoexp]
  constructor
  · simp [core_add, hclosed0, hvalid]
  · simp [core_get, hclosed0, hvalid]

/-- Witness for C2 at a concrete input: add "a" (succeeding on the empty
cache) at time 0 with ttl 10, set another key "b", then at time 5 a second
add of "a" returns false and get "a" still returns the first value. -/
theorem add_insert_once_witness :
    core_add (runOps ⟨[("a", ⟨.int 1, some 10, none⟩)], false⟩
        [(1, .opSet "b" (.int 2) none none)]) 5 "a" (.int 9) none none
      = .ok (runOps ⟨[("a", ⟨.int 1, some 10, none⟩)], false⟩
        [(1, .opSet "b" (.int 2) none none)], false) ∧
    core_get (runOps ⟨[("a", ⟨.int 1, some 10, none⟩)], false⟩
        [(1, .opSet "b" (.int 2) none none)]) 5 "a" none
      = .ok (some (.int 1)) :=
  add_insert_once ⟨[], false⟩ ⟨[("a", ⟨.int 1, some 10, none⟩)], false⟩
    0 5 "a" (.int 1) (.int 9) (some 10) none none none
    [(1, .opSet "b" (.int 2) none none)]
    rfl
    (by decide)
    (by intro d hd; injection hd with h; omega)

/-- C6: `set(k, v, timeout=0)` makes `k` immediately expired — the adapter
maps an explicit timeout of 0 to -1 (lines 257-259), so at any time `t ≥ t0`
a `get(k)` returns the supplied default and `has_key(k)` is false. -/
theorem set_zero_ttl_expired (s s1 : DjangoCache) (t0 t : Int) (key : String)
    (value : Value) (dflt : Option Value) (b : Bool)
    (hopen : s.core.closed = false) (ht : t0 ≤ t)
    (hset : s.set t0 key value (.secs 0) = .ok (s1, b)) :
    b = true ∧ s1.get t key dflt = .ok dflt ∧ s1.has_key t key = .ok false := by
  have hcomp : s.set t0 key value (.secs 0) =
      .ok ({ s with core := (setEntry s.core (s.make_key key none)
        ⟨value, some (t0 + -1), none⟩) }, true) := by
    simp [DjangoCache.set, DjangoCache.setArgs, DjangoCache.get_backend_timeout,
      core_set, hopen]
  rw [hcomp] at hset
  injection hset with h
  injection h with h1 h2
  subst h1
  subst h2
  have hexp : expired t (⟨value, some (t0 + -1), none⟩ : Entry) = true := by
    simp [expired]
    omega
  refine ⟨rfl, ?_, ?_⟩
  · simp [DjangoCache.get, DjangoCache.getArgs, DjangoCache.make_key, core_get,
      lookupValid, lookupKey_setEntry_self, hexp, hopen, setEntry_closed]
  · simp [DjangoCache.has_key, DjangoCache.make_key, core_contains,
      lookupValid, lookupKey_setEntry_self, hexp, hopen, setEntry_closed]

/-- Witness for C6 at a concrete input: set "a" with timeout 0 at time 0 on
an empty cache reports success, yet get returns the default and has_key is
false at the same instant. -/
theorem set_zero_ttl_expired_witness :
    (true : Bool) = true ∧
    DjangoCache.get ⟨⟨[("p:1:a", ⟨.int 3, some (-1), none⟩)], false⟩, "p", 1, some 300⟩
      0 "a" (some (.str "z")) = .ok (some (.str "z")) ∧
    DjangoCache.has_key ⟨⟨[("p:1:a", ⟨.int 3, some (-1), none⟩)], false⟩, "p", 1, some 300⟩
      0 "a" = .ok false :=
  set_zero_ttl_expired ⟨⟨[], false⟩, "p", 1, some 300⟩
    ⟨⟨[("p:1:a", ⟨.int 3, some (-1), none⟩)], false⟩, "p", 1, some 300⟩
    0 0 "a" (.int 3) (some (.str "z")) true rfl (le_refl 0) rfl

end DiskCache
